import Mathlib

/-!
Verification development for `run.py`, the bootstrap script of this
repository.  The script loads a `.env` file, puts the script's own
directory at the front of `sys.path`, creates a session via
`InMemorySessionService.create_session`, constructs a `Runner`, submits a
single user message `"run"`, and prints every item of the runner's result
stream through a three-way fallback chain:

    for result in result_gen:
        if isinstance(result, dict):
            pprint(result)
        else:
            try:
                pprint(result.__dict__)
            except Exception:
                print(str(result))

The embedding below models the Python runtime behaviour needed by the
claims: class membership (`isinstance`), exception classes
(`except Exception` versus `BaseException`), the effects of printing, the
generator semantics of the result stream, and the observable event trace
of the whole module run.
-/

set_option autoImplicit false

namespace RunPy

/-- A Python class, identified by its name together with the names of all
classes in its method-resolution order (itself included).  Only the
ancestry matters here: `isinstance(x, dict)` and `except Exception`
are both ancestry tests. -/
structure PyClass where
  name : String
  ancestors : List String
  deriving DecidableEq

/-- `c.isSubclassOf b`: the class `c` is `b` or derives from `b`. -/
def PyClass.isSubclassOf (c : PyClass) (base : String) : Bool :=
  c.ancestors.contains base

/-- A Python exception value, carrying its runtime class.  An
`except Exception:` clause catches it exactly when the class derives
from `Exception`; `KeyboardInterrupt` and `SystemExit` derive only from
`BaseException` and are not caught. -/
structure PyExc where
  cls : PyClass
  deriving DecidableEq

instance exceptDecEq {ε α : Type} [DecidableEq ε] [DecidableEq α] :
    DecidableEq (Except ε α) := fun x y =>
  match x, y with
  | .ok a, .ok b =>
    if h : a = b then isTrue (by rw [h])
    else isFalse (by intro hc; cases hc; exact h rfl)
  | .error a, .error b =>
    if h : a = b then isTrue (by rw [h])
    else isFalse (by intro hc; cases hc; exact h rfl)
  | .ok _, .error _ => isFalse (by intro hc; cases hc)
  | .error _, .ok _ => isFalse (by intro hc; cases hc)

/-- One item yielded by the runner's result stream, as observed by the
print loop of `run.py` (lines 53-60).  The item is opaque to the loop;
all the loop can do is test its class and run one of three printing
effects, each of which either produces a line of output or raises:
`pprintSelf` is the effect of `pprint(result)`, `pprintAttrs` the effect
of `pprint(result.__dict__)` (this also raises when the object has no
`__dict__`), and `printStr` the effect of `print(str(result))`. -/
structure ResultItem where
  cls : PyClass
  pprintSelf : Except PyExc String
  pprintAttrs : Except PyExc String
  printStr : Except PyExc String
  deriving DecidableEq

/-- The body of the print loop for one item (`run.py` lines 54-60):
if `isinstance(result, dict)` then `pprint(result)`; otherwise try
`pprint(result.__dict__)`, and on a failure caught by
`except Exception:` fall back to `print(str(result))`.  An exception
not caught (a `BaseException` outside `Exception`, or a failure of the
dict branch or of the string fallback themselves) propagates as
`.error`. -/
def renderResult (r : ResultItem) : Except PyExc String :=
  if r.cls.isSubclassOf "dict" then
    r.pprintSelf
  else
    match r.pprintAttrs with
    | .ok s => .ok s
    | .error e =>
      if e.cls.isSubclassOf "Exception" then r.printStr else .error e

/-- The per-item rendering as the specification words it: "print it as a
mapping if it already is one; otherwise attempt to print its attribute
dictionary; otherwise fall back to printing its string form".  The spec
sentence does not restrict which failures trigger the final fallback;
this definition is the spec-side comparator for the refinement claims. -/
def specItemOutput (r : ResultItem) : Except PyExc String :=
  if r.cls.isSubclassOf "dict" then
    r.pprintSelf
  else
    match r.pprintAttrs with
    | .ok s => .ok s
    | .error _ => r.printStr

/-- One step of the result generator as the `for` loop observes it:
either it yields the next item or it raises an exception (after which
Python iteration is over; any later entries in an event list are
unreachable). -/
inductive StreamEvent where
  | yield (r : ResultItem)
  | raise (e : PyExc)
  deriving DecidableEq

/-- The print loop (`run.py` lines 53-60) over the generator's events:
returns the lines printed, in order, and the exception that escaped the
loop, if any.  A `raise` from the generator stops iteration
immediately; a rendering failure that is not caught by the per-item
fallback likewise escapes and stops iteration. -/
def runFromEvents : List StreamEvent → List String × Option PyExc
  | [] => ([], none)
  | .raise e :: _ => ([], some e)
  | .yield r :: rest =>
    match renderResult r with
    | .ok s =>
      let p := runFromEvents rest
      (s :: p.1, p.2)
    | .error e => ([], some e)

/-- Whether a printing effect succeeded. -/
def isOkB : Except PyExc String → Bool
  | .ok _ => true
  | .error _ => false

/-- The line produced by a successful printing effect (unused default on
failure). -/
def outOf : Except PyExc String → String
  | .ok s => s
  | .error _ => ""

/-- A text part of a message, `google.genai.types.Part(text=...)`. -/
structure Part where
  text : String
  deriving DecidableEq

/-- A message content unit: a role and a list of parts. -/
structure Content where
  role : String
  parts : List Part
  deriving DecidableEq

/-- `google.genai.types.UserContent(parts)`: content with the fixed role
`"user"`. -/
def UserContent (parts : List Part) : Content :=
  { role := "user", parts := parts }

/-- The one message `run.py` constructs (line 50):
`UserContent([Part(text="run")])`. -/
def runMessage : Content :=
  UserContent [{ text := "run" }]

/-- The external collaborators of the script, consumed as black boxes:
the script's directory, the session service's `create_session` (which
may fail), and the runner's `run` viewed as the event sequence its
generator produces for given arguments. -/
structure World where
  currentDir : String
  createSession : String → String → String → Except PyExc Unit
  runEvents : String → String → Content → List StreamEvent

/-- An observable step of the module run: the import-time effects
(`load_dotenv()`, `sys.path.insert`, the pipeline-loaded print), the
calls into the collaborators, and each printed line. -/
inductive BootEvent where
  | loadDotenv
  | pathInsert (idx : Nat) (dir : String)
  | printOut (s : String)
  | createSessionCall (userId sessionId appName : String)
  | constructRunner (appName : String)
  | runCall (userId sessionId : String) (msg : Content)
  deriving DecidableEq

def BootEvent.isCreateCall : BootEvent → Bool
  | .createSessionCall _ _ _ => true
  | _ => false

def BootEvent.isConstructCall : BootEvent → Bool
  | .constructRunner _ => true
  | _ => false

def BootEvent.isRunCall : BootEvent → Bool
  | .runCall _ _ _ => true
  | _ => false

def pipelineLoadedLine : String := "Loaded pipeline from:"

def dbgStartLine : String := "[DEBUG] Starting pipeline run..."

def dbgDoneLine : String := "[DEBUG] Pipeline run complete. Results:"

/-- Import-time effects of `run.py` (lines 13-31): `load_dotenv()`,
`sys.path.insert(0, current_dir)`, and the `print("Loaded pipeline
from:", ...)` line. -/
def importPhase (w : World) : List BootEvent :=
  [.loadDotenv, .pathInsert 0 w.currentDir, .printOut pipelineLoadedLine]

/-- The `__main__` block of `run.py` (lines 34-60): create the session
(awaited to completion; a failure propagates and nothing further runs),
construct the `Runner`, print the debug lines, call `runner.run` with
the fixed identifiers and `runMessage`, and run the print loop over the
resulting events. -/
def mainPhase (w : World) : List BootEvent × Option PyExc :=
  match w.createSession "u1" "sess1" "agents" with
  | .error e => ([.createSessionCall "u1" "sess1" "agents"], some e)
  | .ok _ =>
    ([.createSessionCall "u1" "sess1" "agents",
      .constructRunner "agents",
      .printOut dbgStartLine,
      .runCall "u1" "sess1" runMessage,
      .printOut dbgDoneLine]
      ++ (runFromEvents (w.runEvents "u1" "sess1" runMessage)).1.map BootEvent.printOut,
     (runFromEvents (w.runEvents "u1" "sess1" runMessage)).2)

/-- The whole module run: import-time effects, then the `__main__`
block, with the exception (if any) that terminates the process. -/
def moduleMain (w : World) : List BootEvent × Option PyExc :=
  (importPhase w ++ (mainPhase w).1, (mainPhase w).2)

/-- Python's `list.insert(i, x)`, as used by `sys.path.insert(0,
current_dir)` on line 23: insert before position `i`, clamping past the
end. -/
def listInsert : List String → Nat → String → List String
  | l, 0, x => x :: l
  | [], _ + 1, x => [x]
  | d :: l, n + 1, x => d :: listInsert l n x

/-- Python module resolution over `sys.path`: the first directory on the
path that provides a package of the given name wins. -/
def resolveModule (path : List String) (provides : String → String → Bool)
    (pkg : String) : Option String :=
  path.find? fun d => provides d pkg

/-! Concrete Python classes, exceptions and items used by witnesses and
counterexamples. -/

def dictCls : PyClass := { name := "dict", ancestors := ["dict", "object"] }

def odCls : PyClass :=
  { name := "OrderedDict", ancestors := ["OrderedDict", "dict", "object"] }

def objCls : PyClass := { name := "Event", ancestors := ["Event", "object"] }

def attrErrExc : PyExc :=
  { cls := { name := "AttributeError",
             ancestors := ["AttributeError", "Exception", "BaseException"] } }

def reprErrExc : PyExc :=
  { cls := { name := "RuntimeError",
             ancestors := ["RuntimeError", "Exception", "BaseException"] } }

def dupSessExc : PyExc :=
  { cls := { name := "ValueError",
             ancestors := ["ValueError", "Exception", "BaseException"] } }

def kbExc : PyExc :=
  { cls := { name := "KeyboardInterrupt",
             ancestors := ["KeyboardInterrupt", "BaseException"] } }

/-- A mapping item: `isinstance(·, dict)` holds, `pprint` succeeds. -/
def itemA : ResultItem :=
  { cls := dictCls, pprintSelf := .ok "A", pprintAttrs := .error attrErrExc,
    printStr := .ok "strA" }

/-- A non-mapping object exposing an attribute dictionary. -/
def itemB : ResultItem :=
  { cls := objCls, pprintSelf := .ok "B", pprintAttrs := .ok "attrsB",
    printStr := .ok "strB" }

/-- A plain object: no usable `__dict__` (the access raises an
`AttributeError`), so only its string form prints. -/
def itemC : ResultItem :=
  { cls := objCls, pprintSelf := .ok "C", pprintAttrs := .error attrErrExc,
    printStr := .ok "strC" }

/-- A `dict` subclass item whose other printing effects would all
fail. -/
def itemD : ResultItem :=
  { cls := odCls, pprintSelf := .ok "D", pprintAttrs := .error kbExc,
    printStr := .error attrErrExc }

/-- A mapping whose `pprint` raises (e.g. a value whose `__repr__`
raises). -/
def badDict : ResultItem :=
  { cls := dictCls, pprintSelf := .error reprErrExc, pprintAttrs := .ok "x",
    printStr := .ok "y" }

/-- A non-mapping item whose `__dict__` access raises
`KeyboardInterrupt`. -/
def kbItem : ResultItem :=
  { cls := objCls, pprintSelf := .ok "K", pprintAttrs := .error kbExc,
    printStr := .ok "strK" }

/-- A world whose session service rejects the creation call. -/
def failWorld : World :=
  { currentDir := "/proj",
    createSession := fun _ _ _ => .error dupSessExc,
    runEvents := fun _ _ _ => [.yield itemA] }

/-- A world whose session service accepts the creation call and whose
runner yields three items. -/
def okWorld : World :=
  { currentDir := "/proj",
    createSession := fun _ _ _ => .ok (),
    runEvents := fun _ _ _ => [.yield itemA, .yield itemB, .yield itemC] }

/-! Theorems settling the claims. -/

/-- When rendering an item succeeds, the code's fallback chain picks the
same output as the chain the specification describes. -/
theorem renderResult_eq_spec (r : ResultItem)
    (h : isOkB (renderResult r) = true) :
    renderResult r = specItemOutput r := by
  unfold renderResult specItemOutput at *
  cases hd : r.cls.isSubclassOf "dict" <;> simp [hd] at *
  cases ha : r.pprintAttrs <;> simp [ha] at *
  cases he : (PyExc.cls _).isSubclassOf "Exception" <;> simp_all [isOkB]

/-- No `printOut` event satisfies a predicate that is false on
`printOut`, so the loop's output prints never contribute a collaborator
call to a filtered trace. -/
theorem filter_printOut_eq_nil (p : BootEvent → Bool)
    (hp : ∀ s, p (BootEvent.printOut s) = false) (l : List String) :
    (l.map BootEvent.printOut).filter p = [] := by
  induction l with
  | nil => rfl
  | cons s t ih => simp [List.filter, hp, ih]

/-- Counterexample to C1 as stated: for the sequence `[kbItem, itemB]`
the spec's three-way chain predicts that `kbItem` prints its string
form `"strK"` and then `itemB` prints its attribute dictionary, but the
loop prints neither — `kbItem`'s attribute-branch `KeyboardInterrupt`
is not caught, so the loop aborts and no item is printed at all. -/
theorem spec_chain_prediction_fails :
    ([kbItem, itemB].map fun r => outOf (specItemOutput r))
      = ["strK", "attrsB"] ∧
    runFromEvents ([kbItem, itemB].map StreamEvent.yield)
      = ([], some kbExc) := by
  decide

/-- Claim C1 (amended): for every finite sequence of yielded result
items on which each item's rendering succeeds — no uncaught failure
while printing an item — the reporting loop prints each item by the
correct branch of the three-way fallback chain described by the spec
(`specItemOutput`: mapping pretty-printed directly, else the attribute
dictionary, else the string form), and the printed lines appear in
exactly the order the items were yielded. -/
theorem reportLoop_correct_branch_in_order (items : List ResultItem)
    (h : ∀ r ∈ items, isOkB (renderResult r) = true) :
    runFromEvents (items.map StreamEvent.yield)
      = (items.map fun r => outOf (specItemOutput r), none) := by
  induction items with
  | nil => rfl
  | cons r rest ih =>
    have hr := h r (List.mem_cons_self r rest)
    have hrest : ∀ x ∈ rest, isOkB (renderResult x) = true :=
      fun x hx => h x (List.mem_cons_of_mem r hx)
    have hspec := renderResult_eq_spec r hr
    cases hok : renderResult r with
    | ok s =>
      simp [runFromEvents, hok, ih hrest, ← hspec, outOf]
    | error e => simp [isOkB, hok] at hr

/-- Witness for C1: the spec's three-item double — a mapping, an object
with an attribute dictionary, a plain object — prints via the right
branches, in order. -/
theorem reportLoop_correct_branch_in_order_witness :
    (∀ r ∈ [itemA, itemB, itemC], isOkB (renderResult r) = true) ∧
    runFromEvents ([itemA, itemB, itemC].map StreamEvent.yield)
      = ([itemA, itemB, itemC].map fun r => outOf (specItemOutput r), none) :=
  ⟨by decide, reportLoop_correct_branch_in_order [itemA, itemB, itemC] (by decide)⟩

/-- Counterexample to C2 as stated: `itemB` renders fine on its own, yet
when the item before it is a mapping whose `pprint` raises, the loop
aborts — nothing is printed and the exception escapes, so a failure
while printing a single item does abort the iteration over the
remaining items. -/
theorem print_failure_aborts_loop :
    isOkB (renderResult itemB) = true ∧
    runFromEvents [.yield badDict, .yield itemB] = ([], some reprErrExc) := by
  decide

/-- Claim C2 (amended): only a failure of class `Exception` raised while
pretty-printing a non-mapping item's attribute dictionary is confined
to that item — rendering falls back to the string form and the loop
proceeds to the remaining items unchanged. -/
theorem attr_failure_does_not_abort_loop (r : ResultItem) (e : PyExc)
    (s : String) (rest : List StreamEvent)
    (hd : r.cls.isSubclassOf "dict" = false)
    (ha : r.pprintAttrs = .error e)
    (he : e.cls.isSubclassOf "Exception" = true)
    (hs : r.printStr = .ok s) :
    runFromEvents (.yield r :: rest)
      = (s :: (runFromEvents rest).1, (runFromEvents rest).2) := by
  simp [runFromEvents, renderResult, hd, ha, he, hs]

/-- Witness for the amended C2: after `itemC`'s attribute-dictionary
failure, `itemB` still prints. -/
theorem attr_failure_does_not_abort_loop_witness :
    (itemC.cls.isSubclassOf "dict" = false ∧
     itemC.pprintAttrs = Except.error attrErrExc ∧
     attrErrExc.cls.isSubclassOf "Exception" = true ∧
     itemC.printStr = Except.ok "strC") ∧
    runFromEvents [.yield itemC, .yield itemB]
      = ("strC" :: (runFromEvents [.yield itemB]).1,
         (runFromEvents [.yield itemB]).2) :=
  ⟨by decide,
   attr_failure_does_not_abort_loop itemC attrErrExc "strC" [.yield itemB]
     (by decide) rfl (by decide) rfl⟩

/-- Claim C3: if the generator raises partway through iteration, the
loop propagates that exception unmodified; the lines printed are
exactly those of the items yielded before the raise, and nothing after
the raising point is ever printed. -/
theorem stream_raise_propagates (pre : List ResultItem) (e : PyExc)
    (post : List StreamEvent)
    (h : ∀ r ∈ pre, isOkB (renderResult r) = true) :
    runFromEvents (pre.map StreamEvent.yield ++ StreamEvent.raise e :: post)
      = (pre.map fun r => outOf (renderResult r), some e) := by
  induction pre with
  | nil => rfl
  | cons r rest ih =>
    have hr := h r (List.mem_cons_self r rest)
    have hrest : ∀ x ∈ rest, isOkB (renderResult x) = true :=
      fun x hx => h x (List.mem_cons_of_mem r hx)
    cases hok : renderResult r with
    | ok s => simp [runFromEvents, hok, ih hrest, outOf]
    | error x => simp [isOkB, hok] at hr

/-- Witness for C3: one successfully printed item, then a raise; the
item after the raise never prints. -/
theorem stream_raise_propagates_witness :
    (∀ r ∈ [itemA], isOkB (renderResult r) = true) ∧
    runFromEvents ([itemA].map StreamEvent.yield
        ++ StreamEvent.raise reprErrExc :: [StreamEvent.yield itemB])
      = ([itemA].map fun r => outOf (renderResult r), some reprErrExc) :=
  ⟨by decide,
   stream_raise_propagates [itemA] reprErrExc [StreamEvent.yield itemB] (by decide)⟩

/-- Claim C4: when `create_session` fails, the bootstrap terminates with
that failure propagated uncaught, the `Runner` is never constructed and
the runner is never invoked. -/
theorem createSession_failure_stops_bootstrap (w : World) (e : PyExc)
    (h : w.createSession "u1" "sess1" "agents" = .error e) :
    (moduleMain w).2 = some e ∧
    (moduleMain w).1.filter BootEvent.isConstructCall = [] ∧
    (moduleMain w).1.filter BootEvent.isRunCall = [] := by
  simp [moduleMain, mainPhase, importPhase, h, List.filter,
    BootEvent.isConstructCall, BootEvent.isRunCall]

/-- Witness for C4: a session service that rejects the creation call. -/
theorem createSession_failure_stops_bootstrap_witness :
    failWorld.createSession "u1" "sess1" "agents" = Except.error dupSessExc ∧
    ((moduleMain failWorld).2 = some dupSessExc ∧
     (moduleMain failWorld).1.filter BootEvent.isConstructCall = [] ∧
     (moduleMain failWorld).1.filter BootEvent.isRunCall = []) :=
  ⟨rfl, createSession_failure_stops_bootstrap failWorld dupSessExc rfl⟩

/-- Claim C5: every run of the bootstrap performs exactly one
`create_session` call, with identifiers `"u1"`, `"sess1"`, `"agents"`,
and no runner invocation occurs anywhere before that call. -/
theorem createSession_once_before_run (w : World) :
    (moduleMain w).1.filter BootEvent.isCreateCall
      = [BootEvent.createSessionCall "u1" "sess1" "agents"] ∧
    ((moduleMain w).1.takeWhile fun ev => !ev.isCreateCall).filter
        BootEvent.isRunCall = [] := by
  cases h : w.createSession "u1" "sess1" "agents" with
  | error e =>
    simp [moduleMain, mainPhase, importPhase, h, List.filter, List.takeWhile,
      BootEvent.isCreateCall, BootEvent.isRunCall]
  | ok u =>
    refine ⟨?_, ?_⟩ <;>
      simp [moduleMain, mainPhase, importPhase, h, List.filter_append,
        List.filter, List.takeWhile, BootEvent.isCreateCall,
        BootEvent.isRunCall,
        filter_printOut_eq_nil BootEvent.isCreateCall (fun _ => rfl),
        filter_printOut_eq_nil BootEvent.isRunCall (fun _ => rfl)]

/-- Claim C6: when session creation succeeds, the module's observable
trace is exactly the strict sequence environment setup, session
creation, runner construction, execution, result reporting — the
awaited session creation completes before any later step, and no two
operations overlap. -/
theorem bootstrap_strict_sequence (w : World) (u : Unit)
    (h : w.createSession "u1" "sess1" "agents" = .ok u) :
    moduleMain w =
      ([.loadDotenv, .pathInsert 0 w.currentDir, .printOut pipelineLoadedLine,
        .createSessionCall "u1" "sess1" "agents",
        .constructRunner "agents",
        .printOut dbgStartLine,
        .runCall "u1" "sess1" runMessage,
        .printOut dbgDoneLine]
        ++ (runFromEvents (w.runEvents "u1" "sess1" runMessage)).1.map
             BootEvent.printOut,
       (runFromEvents (w.runEvents "u1" "sess1" runMessage)).2) := by
  simp [moduleMain, mainPhase, importPhase, h]

/-- Witness for C6: the full ordered trace of `okWorld`. -/
theorem bootstrap_strict_sequence_witness :
    okWorld.createSession "u1" "sess1" "agents" = Except.ok () ∧
    moduleMain okWorld =
      ([.loadDotenv, .pathInsert 0 okWorld.currentDir,
        .printOut pipelineLoadedLine,
        .createSessionCall "u1" "sess1" "agents",
        .constructRunner "agents",
        .printOut dbgStartLine,
        .runCall "u1" "sess1" runMessage,
        .printOut dbgDoneLine]
        ++ (runFromEvents (okWorld.runEvents "u1" "sess1" runMessage)).1.map
             BootEvent.printOut,
       (runFromEvents (okWorld.runEvents "u1" "sess1" runMessage)).2) :=
  ⟨rfl, bootstrap_strict_sequence okWorld () rfl⟩

/-- Claim C7: whenever the bootstrap reaches execution, the runner is
invoked exactly once, with the single synthetic user message whose
content is one text part `"run"`; no other message is ever
submitted. -/
theorem runner_invoked_once_with_run_message (w : World) (u : Unit)
    (h : w.createSession "u1" "sess1" "agents" = .ok u) :
    (moduleMain w).1.filter BootEvent.isRunCall
      = [BootEvent.runCall "u1" "sess1" (UserContent [{ text := "run" }])] := by
  simp [moduleMain, mainPhase, importPhase, h, List.filter_append, List.filter,
    BootEvent.isRunCall, runMessage,
    filter_printOut_eq_nil BootEvent.isRunCall (fun _ => rfl)]

/-- Witness for C7 at `okWorld`. -/
theorem runner_invoked_once_with_run_message_witness :
    okWorld.createSession "u1" "sess1" "agents" = Except.ok () ∧
    (moduleMain okWorld).1.filter BootEvent.isRunCall
      = [BootEvent.runCall "u1" "sess1" (UserContent [{ text := "run" }])] :=
  ⟨rfl, runner_invoked_once_with_run_message okWorld () rfl⟩

/-- Claim C8: `sys.path.insert(0, current_dir)` puts the script's
directory at the front of the search path, so any package it provides
resolves to it before any other directory on the path, whatever the
rest of the path contains. -/
theorem path_insert_resolves_local_first (path : List String)
    (dir pkg : String) (provides : String → String → Bool)
    (h : provides dir pkg = true) :
    listInsert path 0 dir = dir :: path ∧
    resolveModule (listInsert path 0 dir) provides pkg = some dir := by
  have h0 : listInsert path 0 dir = dir :: path := by cases path <;> rfl
  rw [h0]
  exact ⟨rfl, by simp [resolveModule, List.find?, h]⟩

/-- Witness for C8: a project directory providing `pipeline` shadows a
global site-packages copy. -/
theorem path_insert_resolves_local_first_witness :
    (fun d p => d == "/proj" && p == "pipeline") "/proj" "pipeline" = true ∧
    (listInsert ["/site-packages"] 0 "/proj" = "/proj" :: ["/site-packages"] ∧
     resolveModule (listInsert ["/site-packages"] 0 "/proj")
       (fun d p => d == "/proj" && p == "pipeline") "pipeline" = some "/proj") :=
  ⟨rfl, path_insert_resolves_local_first ["/site-packages"] "/proj" "pipeline"
    (fun d p => d == "/proj" && p == "pipeline") rfl⟩

/-- Claim C9: any item whose class is `dict` or a subclass of `dict`
takes the mapping branch: it is pretty-printed directly, and the
attribute-dictionary and string effects are never consulted — the
outcome is the same whatever those effects would have been. -/
theorem dict_instances_take_mapping_branch (r : ResultItem)
    (a s : Except PyExc String)
    (h : r.cls.isSubclassOf "dict" = true) :
    renderResult r = r.pprintSelf ∧
    renderResult { r with pprintAttrs := a, printStr := s } = r.pprintSelf := by
  constructor <;> simp [renderResult, h]

/-- Witness for C9: an `OrderedDict`-classed item whose attribute and
string effects would both raise still pretty-prints as a mapping. -/
theorem dict_instances_take_mapping_branch_witness :
    odCls.isSubclassOf "dict" = true ∧
    (renderResult itemD = itemD.pprintSelf ∧
     renderResult { itemD with pprintAttrs := Except.error kbExc,
                               printStr := Except.ok "zz" }
       = itemD.pprintSelf) :=
  ⟨by decide,
   dict_instances_take_mapping_branch itemD (Except.error kbExc)
     (Except.ok "zz") (by decide)⟩

/-- Claim C10: the `except Exception:` clause catches only `Exception`
subclasses — a `BaseException` outside `Exception` (such as
`KeyboardInterrupt`) raised while printing a non-mapping item's
attribute dictionary is not converted into the string fallback: it
propagates out of the item and terminates the loop, printing
nothing further. -/
theorem base_exception_not_caught (r : ResultItem) (e : PyExc)
    (rest : List StreamEvent)
    (hd : r.cls.isSubclassOf "dict" = false)
    (ha : r.pprintAttrs = .error e)
    (he : e.cls.isSubclassOf "Exception" = false) :
    renderResult r = .error e ∧
    runFromEvents (.yield r :: rest) = ([], some e) := by
  have hr : renderResult r = .error e := by
    simp [renderResult, hd, ha, he]
  exact ⟨hr, by simp [runFromEvents, hr]⟩

/-- Witness for C10: a `KeyboardInterrupt` from the attribute branch
skips the string fallback and kills the loop before `itemB` prints. -/
theorem base_exception_not_caught_witness :
    (kbItem.cls.isSubclassOf "dict" = false ∧
     kbItem.pprintAttrs = Except.error kbExc ∧
     kbExc.cls.isSubclassOf "Exception" = false) ∧
    (renderResult kbItem = Except.error kbExc ∧
     runFromEvents [.yield kbItem, .yield itemB] = ([], some kbExc)) :=
  ⟨by decide,
   base_exception_not_caught kbItem kbExc [StreamEvent.yield itemB]
     (by decide) rfl (by decide)⟩

end RunPy
